import Mathlib

/-!
Verification of the kafkacl connector lifecycle & reconciliation subsystem.

Shallow embedding of:
  * `kafkacl/config.py`  — `ConfigOption`, `BaseConfigFormatter.to_dict`
  * `kafkacl/connect.py` — `ConnectClient` verbs (create / resume / status reads)
  * `kafkacl/base.py`    — `BaseIntegrator` lifecycle (start / patch / resume)
  * `kafkacl/models.py`  — `TaskStatus`, `ClientContext` endpoint handling

JSON values are modelled by an inductive `Json`; Python dicts by ordered
association lists with overwrite-in-place assignment, mirroring Python's
insertion-ordered dicts.  HTTP traffic is modelled by passing each verb the
transport outcome (`Except ConnApiError HttpResponse`) it would observe.
-/

namespace Kafkacl

/-- JSON values as produced by `response.json()` and stored in charm config /
dynamic config. -/
inductive Json where
  | null : Json
  | bool : Bool → Json
  | num : Int → Json
  | str : String → Json
  | arr : List Json → Json
  | obj : List (String × Json) → Json

/-- Python dict with string keys, insertion ordered. -/
abbrev Obj := List (String × Json)

/-- Lookup in a Python dict (first binding wins; dicts built by `objSet`
have unique keys). -/
def objGet : Obj → String → Option Json
  | [], _ => Option.none
  | (k', v) :: rest, k => if k' = k then some v else objGet rest k

/-- Python dict assignment `d[k] = v`: overwrite in place, else append. -/
def objSet : Obj → String → Json → Obj
  | [], k, v => [(k, v)]
  | (k', v') :: rest, k, v =>
      if k' = k then (k, v) :: rest else (k', v') :: objSet rest k v

/-- `k in d` for a Python dict. -/
def hasKey (d : Obj) (k : String) : Bool := (objGet d k).isSome

/-- Python `d1 | d2` (PEP 584): right-biased union, values of `d2` win. -/
def pyUnion (d1 d2 : Obj) : Obj := d2.foldl (fun a kv => objSet a kv.1 kv.2) d1

/-- Python truthiness of a JSON value (`if not tasks: ...`). -/
def pyFalsy : Json → Bool
  | .null => true
  | .bool b => !b
  | .num n => n == 0
  | .str s => s == ""
  | .arr l => l.isEmpty
  | .obj l => l.isEmpty

/-- Python `d.get(k, default)` on a parsed JSON value that is a dict;
a non-dict receiver raises AttributeError in Python, modelled as the
`Option.none` outcome. -/
def pyDictGet : Json → String → Json → Option Json
  | .obj kvs, k, d => some ((objGet kvs k).getD d)
  | _, _, _ => Option.none

/-- Does the character list `s` start with `pat`? -/
def listStarts : List Char → List Char → Bool
  | _, [] => true
  | [], _ :: _ => false
  | c :: cs, p :: ps => c == p && listStarts cs ps

/-- Does the character list `s` contain `pat` as a contiguous run? -/
def listHasInfix : List Char → List Char → Bool
  | [], pat => pat.isEmpty
  | c :: rest, pat => listStarts (c :: rest) pat || listHasInfix rest pat

/-- Python `pat in s` substring test (for the "already exists" check). -/
def containsSubstr (s pat : String) : Bool :=
  listHasInfix s.toList pat.toList

/-- Python `s.startswith(pat)` (used to recognise multi-connector keys). -/
def strStarts (s pat : String) : Bool :=
  listStarts s.toList pat.toList

/-- Helper for `pySplitChar`: accumulates the current field in reverse. -/
def splitCharAux : List Char → Char → List Char → List String
  | [], _, acc => [String.mk acc.reverse]
  | c :: rest, sep, acc =>
      if c == sep then String.mk acc.reverse :: splitCharAux rest sep []
      else splitCharAux rest sep (c :: acc)

/-- Python `s.split(sep)` for a one-character separator: always returns at
least one field; `"".split(",") == [""]`. -/
def pySplitChar (s : String) (sep : Char) : List String :=
  splitCharAux s.toList sep []

/-! ## models.py -/

/-- `TaskStatus` — closed enum for connector/task states (`models.py`). -/
inductive TaskStatus where
  | UNASSIGNED | PAUSED | RUNNING | STOPPED | FAILED | UNKNOWN
deriving DecidableEq, Repr

/-- `TaskStatus(state)` for a string: `some` on the six member values,
`Option.none` models Python's `ValueError` on any other string. -/
def taskStatusOfString (s : String) : Option TaskStatus :=
  if s = "UNASSIGNED" then some .UNASSIGNED
  else if s = "PAUSED" then some .PAUSED
  else if s = "RUNNING" then some .RUNNING
  else if s = "STOPPED" then some .STOPPED
  else if s = "FAILED" then some .FAILED
  else if s = "UNKNOWN" then some .UNKNOWN
  else Option.none

/-- `TaskStatus(state)` for a JSON value: only strings can match a member
of the `str`-valued enum; any non-string raises `ValueError` in Python. -/
def taskStatusOfJson : Json → Option TaskStatus
  | .str s => taskStatusOfString s
  | _ => Option.none

/-- `ClientContext.endpoints` is a comma-separated string; `ConnectClient.endpoint`
splits it and is documented to raise `ConnectClientError` when no endpoint is
available.  Faithful embedding of

    _endpoints = self.client_context.endpoints.split(",")
    if len(_endpoints) < 1:
        raise ConnectClientError("No connect endpoints available.")
    return _endpoints[0]

Python's `s.split(",")` (and Lean's `String.splitOn`) always returns at least
one element, so the error branch is unreachable. -/
def endpoint (endpoints : String) : Except String String :=
  let es := pySplitChar endpoints ','
  if es.length < 1 then Except.error "No connect endpoints available."
  else Except.ok (es.headD "")

/-! ## config.py — ConfigOption and BaseConfigFormatter -/

/-- Applicability of a `ConfigOption` (the `mode` field of `config.py`):
`both` / `source` / `sink` select connector modes, `none` marks a
charm-only option that is never emitted to the wire payload. -/
inductive OptionMode where
  | both | source | sink | none
deriving DecidableEq, Repr

/-- `IntegratorMode = Literal["source", "sink"]` (`models.py`). -/
inductive IntegratorMode where
  | source | sink
deriving DecidableEq, Repr

/-- View an `IntegratorMode` as the `OptionMode` string it compares equal to
in `option.mode != mode`. -/
def IntegratorMode.toOptionMode : IntegratorMode → OptionMode
  | .source => .source
  | .sink => .sink

/-- `ConfigOption` (`config.py`): mapping between one charm config key and one
connector JSON config key. -/
structure ConfigOption where
  json_key : String
  default : Json
  mode : OptionMode := .both
  configurable : Bool := true
  description : String := ""

/-- One step of the loop body of `BaseConfigFormatter.to_dict`:

    if option.mode == "none": continue
    if option.mode != "both" and option.mode != mode: continue
    if option.configurable and k in charm_config:
        ret[option.json_key] = charm_config[k]; continue
    ret[option.json_key] = option.default
-/
def toDictStep (charm_config : Obj) (mode : IntegratorMode) (ret : Obj)
    (field : String × ConfigOption) : Obj :=
  let k := field.1
  let option := field.2
  if option.mode = OptionMode.none then ret
  else if option.mode ≠ OptionMode.both ∧ option.mode ≠ mode.toOptionMode then ret
  else if option.configurable = true ∧ hasKey charm_config k = true then
    objSet ret option.json_key ((objGet charm_config k).getD option.default)
  else objSet ret option.json_key option.default

/-- `BaseConfigFormatter.to_dict(charm_config, mode)`: serialize the declared
options (the formatter's `fields()`, given here as an ordered list of
(field name, option) pairs) to a wire payload dict. -/
def to_dict (fields : List (String × ConfigOption)) (charm_config : Obj)
    (mode : IntegratorMode) : Obj :=
  fields.foldl (toDictStep charm_config mode) []

/-- Does `to_dict` emit this option for this mode?  Mirrors the two `continue`
guards: an option is emitted iff its mode is `both` or equals the requested
mode (a `none` option is neither, since `toOptionMode` only yields
`source`/`sink`). -/
def applicable (o : ConfigOption) (m : IntegratorMode) : Bool :=
  o.mode == OptionMode.both || o.mode == m.toOptionMode

/-- The value `to_dict` assigns for an emitted option: the charm config value
when the option is configurable and present, else the declared default. -/
def emitted (charm_config : Obj) (name : String) (o : ConfigOption) : Json :=
  if o.configurable = true ∧ hasKey charm_config name = true then
    (objGet charm_config name).getD o.default
  else o.default

/-- Value of the last declared field that emits wire key `key` (later fields
overwrite earlier ones in `to_dict`). -/
def lastEmit (charm_config : Obj) (mode : IntegratorMode) :
    List (String × ConfigOption) → String → Option Json
  | [], _ => Option.none
  | (n, o) :: rest, key =>
    match lastEmit charm_config mode rest key with
    | some v => some v
    | Option.none =>
        if applicable o mode = true ∧ o.json_key = key then
          some (emitted charm_config n o)
        else Option.none

/-! ## connect.py — ConnectClient -/

/-- An HTTP response as seen by `ConnectClient` after `response.json()`
parsing: status code plus parsed JSON body. -/
structure HttpResponse where
  status : Nat
  body : Json

/-- `ConnectApiError` (`models.py`): raised by `ConnectClient.request` on a
transport failure, or by the verbs on an HTTP status outside their success
set (carrying the response content). -/
inductive ConnectApiError where
  | transport (msg : String)
  | httpError (body : Json)

/-- Python exceptions that can escape a `ConnectClient` verb. -/
inductive PyExn where
  | apiError (e : ConnectApiError)
  | attrError (msg : String)
  | valueError (msg : String)
  | typeError (msg : String)

namespace ConnectClient

/-- The 409 test of `ConnectClient.start_connector`:
`"already exists" in response.json().get("message", "")`.
A body that is not a JSON object, or a non-string `message` value, would
raise before the comparison in Python; such responses are treated as not
matching here (they cannot satisfy the already-exists success rule). -/
def alreadyExists (body : Json) : Bool :=
  match pyDictGet body "message" (.str "") with
  | some (.str s) => containsSubstr s "already exists"
  | _ => false

/-- `ConnectClient.start_connector`: POST the config; 201 succeeds, a 409
whose body message contains "already exists" is logged and succeeds, any
other status raises `ConnectApiError` with the response content. -/
def start_connector (resp : HttpResponse) : Except ConnectApiError Unit :=
  if resp.status = 201 then Except.ok ()
  else if resp.status = 409 ∧ alreadyExists resp.body = true then Except.ok ()
  else Except.error (.httpError resp.body)

/-- `ConnectClient.connector_status`: the GET is wrapped in
`try/except ConnectApiError`, so a transport failure degrades to `UNKNOWN`;
then non-(200,404) ⇒ `UNKNOWN`, 404 ⇒ `UNASSIGNED`, else
`TaskStatus(response.json().get("connector", {}).get("state", "UNASSIGNED"))`.
The final enum construction can still raise `ValueError` on an unknown state
string (and attribute errors on non-dict JSON), which the code does not
catch. -/
def connector_status (r : Except ConnectApiError HttpResponse) :
    Except PyExn TaskStatus :=
  match r with
  | .error _ => Except.ok TaskStatus.UNKNOWN
  | .ok resp =>
    if resp.status ≠ 200 ∧ resp.status ≠ 404 then Except.ok TaskStatus.UNKNOWN
    else if resp.status = 404 then Except.ok TaskStatus.UNASSIGNED
    else
      match pyDictGet resp.body "connector" (.obj []) with
      | Option.none => Except.error (.attrError "response body is not an object")
      | some conn =>
        match pyDictGet conn "state" (.str "UNASSIGNED") with
        | Option.none => Except.error (.attrError "connector field is not an object")
        | some st =>
          match taskStatusOfJson st with
          | some t => Except.ok t
          | Option.none => Except.error (.valueError "not a valid TaskStatus")

/-- `ConnectClient.task_status`: GET `connectors/<name>/tasks` (outcome `r1`),
then GET the first task's status sub-resource (outcome `r2 task_id`).
Neither request is wrapped in `try/except`, so a transport
`ConnectApiError` from `request` propagates to the caller.  HTTP outcomes:
first response non-(200,404) ⇒ `UNKNOWN`; 404 or a falsy task list ⇒
`UNASSIGNED`; second response 404 ⇒ `UNASSIGNED`, non-200 ⇒ `UNKNOWN`, else
`TaskStatus(status_response.json().get("state", "UNASSIGNED"))`. -/
def task_status (r1 : Except ConnectApiError HttpResponse)
    (r2 : Json → Except ConnectApiError HttpResponse) : Except PyExn TaskStatus :=
  match r1 with
  | .error e => Except.error (.apiError e)
  | .ok resp =>
    if resp.status ≠ 200 ∧ resp.status ≠ 404 then Except.ok TaskStatus.UNKNOWN
    else if resp.status = 404 then Except.ok TaskStatus.UNASSIGNED
    else if pyFalsy resp.body = true then Except.ok TaskStatus.UNASSIGNED
    else
      match resp.body with
      | .arr (t0 :: _) =>
        (match pyDictGet t0 "id" (.obj []) with
         | Option.none => Except.error (.attrError "task entry is not an object")
         | some idv =>
           match pyDictGet idv "task" (.num 0) with
           | Option.none => Except.error (.attrError "id field is not an object")
           | some task_id =>
             match r2 task_id with
             | .error e => Except.error (.apiError e)
             | .ok sresp =>
               if sresp.status = 404 then Except.ok TaskStatus.UNASSIGNED
               else if sresp.status ≠ 200 then Except.ok TaskStatus.UNKNOWN
               else
                 match pyDictGet sresp.body "state" (.str "UNASSIGNED") with
                 | Option.none =>
                     Except.error (.attrError "status body is not an object")
                 | some st =>
                   match taskStatusOfJson st with
                   | some t => Except.ok t
                   | Option.none =>
                       Except.error (.valueError "not a valid TaskStatus"))
      | _ => Except.error (.typeError "task list is not a list")

end ConnectClient

/-! ## base.py — BaseIntegrator lifecycle controller

The controller is modelled as a pure state-transition function that also
emits the trace of REST calls it issues.  The peer-relation store backing
`self.started` and `self.dynamic_config` is modelled by `IntegratorState`
(a present peer relation is assumed: with no peer relation the flag can
never be persisted).  The outcome of each REST mutation is supplied by a
success oracle `ok : String → Obj → Bool` (`true` = the call returned
without `ConnectApiError`, i.e. 201 / 409-already-exists for create). -/

namespace BaseIntegrator

/-- One REST call issued by the controller, with the JSON payload sent. -/
inductive Call where
  | create (name : String) (payload : Obj)
  | patch (name : String) (payload : Obj)
  | resume (name : String)

/-- Payload of a mutating call, if any. -/
def Call.payload : Call → Option Obj
  | .create _ p => some p
  | .patch _ p => some p
  | .resume _ => Option.none

/-- Static data of one integrator: declared formatter fields, charm config,
configured integrator mode, the multi-connector key marker
(`MULTICONNECTOR_PREFIX`, imported from `models`; its literal value is not
part of the sources, so it stays abstract here), and
`connector_unique_name`. -/
structure Integrator where
  fields : List (String × ConfigOption)
  config : Obj
  mode : IntegratorMode
  marker : String
  connector_unique_name : String

/-- Peer-relation-backed mutable state of one integrator. -/
structure IntegratorState where
  started : Bool
  dynamic_config : Obj

/-- `BaseIntegrator.connector_names`: the dynamic-config keys that start with
the multi-connector marker, in insertion order. -/
def connector_names (marker : String) (dyn : Obj) : List String :=
  (dyn.map Prod.fst).filter (fun n => strStarts n marker)

/-- Python `dict` fields of a JSON value: the per-connector override mapping
stored under a multi-connector key.  Merging a non-dict value would raise
`TypeError` in Python; only dict overrides are exercised here. -/
def jsonFields : Json → Obj
  | .obj kvs => kvs
  | _ => []

/-- Payload sent for connector `n`: formatter output right-union the stored
override for `n` (`to_dict(...) | self.dynamic_config[connector_name]`). -/
def mergedPayload (base : Obj) (dyn : Obj) (n : String) : Obj :=
  pyUnion base (jsonFields ((objGet dyn n).getD .null))

/-- The for-loop shared by `start_connector` and `patch_connector`: one REST
call per connector name, payload = formatter output right-union the stored
override; the first `ConnectApiError` (oracle `false`) aborts the loop.
Returns the calls issued and whether the loop ran to completion. -/
def verbLoop (mk : String → Obj → Call) (ok : String → Obj → Bool)
    (base : Obj) (dyn : Obj) : List String → List Call × Bool
  | [] => ([], true)
  | n :: rest =>
    if ok n (mergedPayload base dyn n) then
      (mk n (mergedPayload base dyn n) :: (verbLoop mk ok base dyn rest).1,
        (verbLoop mk ok base dyn rest).2)
    else ([mk n (mergedPayload base dyn n)], false)

/-- `BaseIntegrator.start_connector`: no-op if already started (logged);
otherwise one create per multi-connector name (first `ConnectApiError`
logged and aborts, flag untouched), or — when no multi-connector key
exists — a single create merging the whole dynamic config; on full success
the started flag is set.  The formatter is always invoked with
`mode="source"` (the literal in the source), never `self.mode`. -/
def start_connector (I : Integrator) (s : IntegratorState)
    (ok : String → Obj → Bool) : IntegratorState × List Call :=
  if s.started then (s, [])
  else if !(verbLoop Call.create ok (to_dict I.fields I.config IntegratorMode.source)
      s.dynamic_config (connector_names I.marker s.dynamic_config)).2 then
    (s, (verbLoop Call.create ok (to_dict I.fields I.config IntegratorMode.source)
      s.dynamic_config (connector_names I.marker s.dynamic_config)).1)
  else if (connector_names I.marker s.dynamic_config).isEmpty then
    if ok I.connector_unique_name
        (pyUnion (to_dict I.fields I.config IntegratorMode.source) s.dynamic_config) then
      ({ s with started := true },
        (verbLoop Call.create ok (to_dict I.fields I.config IntegratorMode.source)
          s.dynamic_config (connector_names I.marker s.dynamic_config)).1 ++
        [Call.create I.connector_unique_name
          (pyUnion (to_dict I.fields I.config IntegratorMode.source) s.dynamic_config)])
    else
      (s, (verbLoop Call.create ok (to_dict I.fields I.config IntegratorMode.source)
          s.dynamic_config (connector_names I.marker s.dynamic_config)).1 ++
        [Call.create I.connector_unique_name
          (pyUnion (to_dict I.fields I.config IntegratorMode.source) s.dynamic_config)])
  else
    ({ s with started := true },
      (verbLoop Call.create ok (to_dict I.fields I.config IntegratorMode.source)
        s.dynamic_config (connector_names I.marker s.dynamic_config)).1)

/-- `BaseIntegrator.patch_connector`: no-op if not started (logged);
otherwise the same per-connector loop with PATCH, same merge rule, same
hard-coded `mode="source"`, re-asserting the started flag on success. -/
def patch_connector (I : Integrator) (s : IntegratorState)
    (ok : String → Obj → Bool) : IntegratorState × List Call :=
  if !s.started then (s, [])
  else if !(verbLoop Call.patch ok (to_dict I.fields I.config IntegratorMode.source)
      s.dynamic_config (connector_names I.marker s.dynamic_config)).2 then
    (s, (verbLoop Call.patch ok (to_dict I.fields I.config IntegratorMode.source)
      s.dynamic_config (connector_names I.marker s.dynamic_config)).1)
  else if (connector_names I.marker s.dynamic_config).isEmpty then
    if ok I.connector_unique_name
        (pyUnion (to_dict I.fields I.config IntegratorMode.source) s.dynamic_config) then
      ({ s with started := true },
        (verbLoop Call.patch ok (to_dict I.fields I.config IntegratorMode.source)
          s.dynamic_config (connector_names I.marker s.dynamic_config)).1 ++
        [Call.patch I.connector_unique_name
          (pyUnion (to_dict I.fields I.config IntegratorMode.source) s.dynamic_config)])
    else
      (s, (verbLoop Call.patch ok (to_dict I.fields I.config IntegratorMode.source)
          s.dynamic_config (connector_names I.marker s.dynamic_config)).1 ++
        [Call.patch I.connector_unique_name
          (pyUnion (to_dict I.fields I.config IntegratorMode.source) s.dynamic_config)])
  else
    ({ s with started := true },
      (verbLoop Call.patch ok (to_dict I.fields I.config IntegratorMode.source)
        s.dynamic_config (connector_names I.marker s.dynamic_config)).1)

/-- `BaseIntegrator.maybe_resume_connector`: return immediately unless the
aggregate connector status is `STOPPED`; otherwise issue the resume call
(whose failure is logged, not escalated). -/
def maybe_resume_connector (connectorStatus : TaskStatus) (name : String) :
    List Call :=
  if connectorStatus ≠ TaskStatus.STOPPED then []
  else [Call.resume name]

end BaseIntegrator

/-! ## Dict lemmas -/

theorem objGet_objSet (d : Obj) (k : String) (v : Json) (q : String) :
    objGet (objSet d k v) q = if k = q then some v else objGet d q := by
  induction d with
  | nil => simp [objSet, objGet]
  | cons hd tl ih =>
    obtain ⟨a, b⟩ := hd
    by_cases hak : a = k
    · subst hak
      by_cases haq : a = q <;> simp [objSet, objGet, haq]
    · by_cases haq : a = q
      · subst haq
        have : ¬ k = a := fun h => hak h.symm
        simp [objSet, objGet, hak, this]
      · simp [objSet, objGet, hak, haq, ih]

theorem hasKey_cons (a : String) (b : Json) (rest : Obj) (q : String) :
    hasKey ((a, b) :: rest) q = (decide (a = q) || hasKey rest q) := by
  by_cases haq : a = q <;> simp [hasKey, objGet, haq]

theorem hasKey_objSet (d : Obj) (k : String) (v : Json) (q : String) :
    hasKey (objSet d k v) q = (decide (k = q) || hasKey d q) := by
  by_cases hkq : k = q <;> simp [hasKey, objGet_objSet, hkq]

theorem objGet_eq_none_of_not_mem (d : Obj) (q : String)
    (h : q ∉ d.map Prod.fst) : objGet d q = Option.none := by
  induction d with
  | nil => rfl
  | cons hd tl ih =>
    obtain ⟨a, b⟩ := hd
    simp only [List.map_cons, List.mem_cons, not_or] at h
    have : ¬ a = q := fun hq => h.1 hq.symm
    simp [objGet, this, ih h.2]

theorem mem_of_objGet_eq_some (d : Obj) (q : String) (v : Json)
    (h : objGet d q = some v) : (q, v) ∈ d := by
  induction d with
  | nil => simp [objGet] at h
  | cons hd tl ih =>
    obtain ⟨a, b⟩ := hd
    by_cases haq : a = q
    · subst haq
      simp [objGet] at h
      simp [h]
    · simp [objGet, haq] at h
      exact List.mem_cons_of_mem _ (ih h)

theorem objGet_foldl_objSet_of_none (d2 : Obj) :
    ∀ (acc : Obj) (q : String), objGet d2 q = Option.none →
      objGet (d2.foldl (fun a kv => objSet a kv.1 kv.2) acc) q = objGet acc q := by
  induction d2 with
  | nil => intro acc q _; rfl
  | cons hd tl ih =>
    intro acc q h
    obtain ⟨a, b⟩ := hd
    by_cases haq : a = q
    · simp [objGet, haq] at h
    · simp only [objGet, haq, if_false] at h
      simp only [List.foldl_cons]
      rw [ih _ q h, objGet_objSet]
      simp [haq]

theorem objGet_pyUnion_right (d2 : Obj) :
    ∀ (d1 : Obj) (q : String) (v : Json), (d2.map Prod.fst).Nodup →
      objGet d2 q = some v → objGet (pyUnion d1 d2) q = some v := by
  induction d2 with
  | nil => intro d1 q v _ h; simp [objGet] at h
  | cons hd tl ih =>
    intro d1 q v hnd h
    obtain ⟨a, b⟩ := hd
    simp only [List.map_cons, List.nodup_cons] at hnd
    by_cases haq : a = q
    · subst haq
      have hb : b = v := by simpa [objGet] using h
      subst hb
      have htl : objGet tl a = Option.none := objGet_eq_none_of_not_mem tl a hnd.1
      show objGet (List.foldl _ (objSet d1 a b) tl) a = some b
      rw [objGet_foldl_objSet_of_none tl _ a htl, objGet_objSet]
      simp
    · simp only [objGet, haq, if_false] at h
      exact ih (objSet d1 a b) q v hnd.2 h

theorem hasKey_foldl_objSet (d2 : Obj) :
    ∀ (acc : Obj) (q : String),
      hasKey (d2.foldl (fun a kv => objSet a kv.1 kv.2) acc) q =
        (hasKey acc q || hasKey d2 q) := by
  induction d2 with
  | nil => intro acc q; simp [hasKey, objGet]
  | cons hd tl ih =>
    intro acc q
    obtain ⟨a, b⟩ := hd
    simp only [List.foldl_cons]
    rw [ih, hasKey_objSet, hasKey_cons]
    cases hasKey acc q <;> cases hasKey tl q <;> simp

theorem hasKey_pyUnion (d1 d2 : Obj) (q : String) :
    hasKey (pyUnion d1 d2) q = (hasKey d1 q || hasKey d2 q) := by
  unfold pyUnion
  exact hasKey_foldl_objSet d2 d1 q

/-! ## to_dict lemmas -/

theorem toDictStep_eq (cfg : Obj) (m : IntegratorMode) (ret : Obj)
    (n : String) (o : ConfigOption) :
    toDictStep cfg m ret (n, o) =
      if applicable o m = true then objSet ret o.json_key (emitted cfg n o)
      else ret := by
  unfold toDictStep applicable emitted
  cases m <;> cases ho : o.mode <;>
    simp [ho, IntegratorMode.toOptionMode] <;>
    by_cases hc : o.configurable = true ∧ hasKey cfg n = true <;>
    simp [hc]

theorem objGet_toDictStep (cfg : Obj) (m : IntegratorMode) (ret : Obj)
    (n : String) (o : ConfigOption) (q : String) :
    objGet (toDictStep cfg m ret (n, o)) q =
      if applicable o m = true ∧ o.json_key = q then some (emitted cfg n o)
      else objGet ret q := by
  rw [toDictStep_eq]
  by_cases ha : applicable o m = true
  · by_cases hk : o.json_key = q <;> simp [ha, hk, objGet_objSet]
  · simp [ha]

theorem objGet_to_dict_fold (cfg : Obj) (m : IntegratorMode)
    (fields : List (String × ConfigOption)) :
    ∀ (acc : Obj) (q : String),
      objGet (fields.foldl (toDictStep cfg m) acc) q =
        match lastEmit cfg m fields q with
        | some v => some v
        | Option.none => objGet acc q := by
  induction fields with
  | nil => intro acc q; simp [lastEmit]
  | cons hd tl ih =>
    intro acc q
    obtain ⟨n, o⟩ := hd
    simp only [List.foldl_cons]
    rw [ih]
    cases h : lastEmit cfg m tl q with
    | some v => simp [lastEmit, h]
    | none =>
      simp only [lastEmit, h]
      rw [objGet_toDictStep]
      by_cases hc : applicable o m = true ∧ o.json_key = q <;> simp [hc]

theorem objGet_to_dict (fields : List (String × ConfigOption)) (cfg : Obj)
    (m : IntegratorMode) (q : String) :
    objGet (to_dict fields cfg m) q = lastEmit cfg m fields q := by
  unfold to_dict
  rw [objGet_to_dict_fold]
  cases h : lastEmit cfg m fields q <;> simp [objGet]

theorem lastEmit_isSome_iff (cfg : Obj) (m : IntegratorMode)
    (fields : List (String × ConfigOption)) (q : String) :
    (lastEmit cfg m fields q).isSome = true ↔
      ∃ p, p ∈ fields ∧ applicable p.2 m = true ∧ p.2.json_key = q := by
  induction fields with
  | nil => simp [lastEmit]
  | cons hd tl ih =>
    obtain ⟨n, o⟩ := hd
    cases h : lastEmit cfg m tl q with
    | some v =>
      have : (lastEmit cfg m tl q).isSome = true := by simp [h]
      obtain ⟨p, hp, hap, hkp⟩ := ih.mp this
      simp only [lastEmit, h]
      constructor
      · intro _; exact ⟨p, List.mem_cons_of_mem _ hp, hap, hkp⟩
      · intro _; simp
    | none =>
      have hno : ¬ ∃ p, p ∈ tl ∧ applicable p.2 m = true ∧ p.2.json_key = q := by
        intro hex
        have := ih.mpr hex
        rw [h] at this
        simp at this
      simp only [lastEmit, h]
      by_cases hc : applicable o m = true ∧ o.json_key = q
      · rw [if_pos hc]
        exact iff_of_true (by simp) ⟨(n, o), List.mem_cons_self _ _, hc.1, hc.2⟩
      · rw [if_neg hc]
        apply iff_of_false (by simp)
        rintro ⟨p, hp, hap, hkp⟩
        rcases List.mem_cons.mp hp with h1 | h2
        · exact hc (by rw [h1] at hap hkp; exact ⟨hap, hkp⟩)
        · exact hno ⟨p, h2, hap, hkp⟩

theorem lastEmit_some_spec (cfg : Obj) (m : IntegratorMode)
    (fields : List (String × ConfigOption)) (q : String) (w : Json)
    (h : lastEmit cfg m fields q = some w) :
    ∃ p, p ∈ fields ∧ applicable p.2 m = true ∧ p.2.json_key = q ∧
      emitted cfg p.1 p.2 = w := by
  induction fields with
  | nil => simp [lastEmit] at h
  | cons hd tl ih =>
    obtain ⟨n, o⟩ := hd
    cases ht : lastEmit cfg m tl q with
    | some v =>
      simp only [lastEmit, ht] at h
      injection h with hvw
      rw [hvw] at ht
      obtain ⟨p, hp, h1, h2, h3⟩ := ih ht
      exact ⟨p, List.mem_cons_of_mem _ hp, h1, h2, h3⟩
    | none =>
      simp only [lastEmit, ht] at h
      by_cases hc : applicable o m = true ∧ o.json_key = q
      · rw [if_pos hc] at h
        injection h with h'
        exact ⟨(n, o), List.mem_cons_self _ _, hc.1, hc.2, h'⟩
      · rw [if_neg hc] at h
        cases h

theorem lastEmit_eq_of_all (cfg : Obj) (m : IntegratorMode)
    (fields : List (String × ConfigOption)) (q : String) (v : Json)
    (hex : ∃ p, p ∈ fields ∧ applicable p.2 m = true ∧ p.2.json_key = q)
    (hall : ∀ p, p ∈ fields → applicable p.2 m = true → p.2.json_key = q →
      emitted cfg p.1 p.2 = v) :
    lastEmit cfg m fields q = some v := by
  have hsome : (lastEmit cfg m fields q).isSome = true :=
    (lastEmit_isSome_iff cfg m fields q).mpr hex
  cases h : lastEmit cfg m fields q with
  | none => rw [h] at hsome; simp at hsome
  | some w =>
    obtain ⟨p, hp, h1, h2, h3⟩ := lastEmit_some_spec cfg m fields q w h
    rw [hall p hp h1 h2] at h3
    rw [h3]

theorem to_dict_empty_of_none_applicable (fields : List (String × ConfigOption))
    (cfg : Obj) (m : IntegratorMode)
    (h : ∀ p, p ∈ fields → applicable p.2 m = false) :
    to_dict fields cfg m = [] := by
  unfold to_dict
  induction fields with
  | nil => rfl
  | cons hd tl ih =>
    obtain ⟨n, o⟩ := hd
    simp only [List.foldl_cons]
    rw [toDictStep_eq]
    rw [if_neg (by simp [h (n, o) (List.mem_cons_self _ _)])]
    exact ih (fun p hp => h p (List.mem_cons_of_mem _ hp))

theorem hasKey_to_dict (fields : List (String × ConfigOption)) (cfg : Obj)
    (m : IntegratorMode) (q : String) :
    hasKey (to_dict fields cfg m) q = true ↔
      ∃ p, p ∈ fields ∧ applicable p.2 m = true ∧ p.2.json_key = q := by
  unfold hasKey
  rw [objGet_to_dict]
  exact lastEmit_isSome_iff cfg m fields q

theorem applicable_iff (o : ConfigOption) (m : IntegratorMode) :
    applicable o m = true ↔
      (o.mode = OptionMode.both ∨ o.mode = m.toOptionMode) := by
  simp [applicable]

theorem applicable_sink_source (o : ConfigOption) (h : o.mode = OptionMode.sink) :
    applicable o IntegratorMode.source = false := by
  simp [applicable, h, IntegratorMode.toOptionMode]

/-! ## Integrator lemmas -/

namespace BaseIntegrator

theorem verbLoop_map (mk : String → Obj → Call) (ok : String → Obj → Bool)
    (base dyn : Obj) (ns : List String) (hok : ∀ n p, ok n p = true) :
    verbLoop mk ok base dyn ns =
      (ns.map (fun n => mk n (mergedPayload base dyn n)), true) := by
  induction ns with
  | nil => rfl
  | cons n rest ih => simp [verbLoop, hok, ih]

theorem verbLoop_mem (mk : String → Obj → Call) (ok : String → Obj → Bool)
    (base dyn : Obj) (ns : List String) :
    ∀ c ∈ (verbLoop mk ok base dyn ns).1, ∃ n, n ∈ ns ∧
      c = mk n (mergedPayload base dyn n) := by
  induction ns with
  | nil => intro c hc; simp [verbLoop] at hc
  | cons n rest ih =>
    intro c hc
    simp only [verbLoop] at hc
    by_cases hok : ok n (mergedPayload base dyn n) = true
    · rw [if_pos hok] at hc
      rcases List.mem_cons.mp hc with h1 | h2
      · exact ⟨n, List.mem_cons_self _ _, h1⟩
      · obtain ⟨n', hn', hc'⟩ := ih c h2
        exact ⟨n', List.mem_cons_of_mem _ hn', hc'⟩
    · rw [if_neg hok] at hc
      have : c = mk n (mergedPayload base dyn n) := by
        simpa using hc
      exact ⟨n, List.mem_cons_self _ _, this⟩

theorem start_of_started (I : Integrator) (s : IntegratorState)
    (ok : String → Obj → Bool) (h : s.started = true) :
    start_connector I s ok = (s, []) := by
  simp [start_connector, h]

theorem start_sets_started (I : Integrator) (s : IntegratorState)
    (ok : String → Obj → Bool) (hok : ∀ n p, ok n p = true) :
    (start_connector I s ok).1.started = true := by
  cases hs : s.started with
  | true => simp [start_connector, hs]
  | false =>
    have hloop := verbLoop_map Call.create ok
      (to_dict I.fields I.config IntegratorMode.source) s.dynamic_config
      (connector_names I.marker s.dynamic_config) hok
    simp [start_connector, hs, hloop, hok]
    split <;> rfl

theorem start_calls_mem (I : Integrator) (s : IntegratorState)
    (ok : String → Obj → Bool) :
    ∀ c ∈ (start_connector I s ok).2,
      (∃ n, c = Call.create n (mergedPayload
        (to_dict I.fields I.config IntegratorMode.source) s.dynamic_config n)) ∨
      c = Call.create I.connector_unique_name
        (pyUnion (to_dict I.fields I.config IntegratorMode.source) s.dynamic_config) := by
  intro c hc
  cases hs : s.started with
  | true => simp [start_connector, hs] at hc
  | false =>
    cases hr2 : (verbLoop Call.create ok
        (to_dict I.fields I.config IntegratorMode.source) s.dynamic_config
        (connector_names I.marker s.dynamic_config)).2 with
    | false =>
      simp only [start_connector, hs, Bool.false_eq_true, if_false, hr2,
        Bool.not_false, if_true] at hc
      obtain ⟨n, _, hcn⟩ := verbLoop_mem Call.create ok _ _ _ c hc
      exact Or.inl ⟨n, hcn⟩
    | true =>
      cases hemp : (connector_names I.marker s.dynamic_config).isEmpty with
      | true =>
        cases hok1 : ok I.connector_unique_name
            (pyUnion (to_dict I.fields I.config IntegratorMode.source)
              s.dynamic_config) with
        | true =>
          simp only [start_connector, hs, Bool.false_eq_true, if_false, hr2,
            Bool.not_true, if_true, hemp, hok1] at hc
          rcases List.mem_append.mp hc with h1 | h2
          · obtain ⟨n, _, hcn⟩ := verbLoop_mem Call.create ok _ _ _ c h1
            exact Or.inl ⟨n, hcn⟩
          · exact Or.inr (by simpa using h2)
        | false =>
          simp only [start_connector, hs, Bool.false_eq_true, if_false, hr2,
            Bool.not_true, if_true, hemp, hok1] at hc
          rcases List.mem_append.mp hc with h1 | h2
          · obtain ⟨n, _, hcn⟩ := verbLoop_mem Call.create ok _ _ _ c h1
            exact Or.inl ⟨n, hcn⟩
          · exact Or.inr (by simpa using h2)
      | false =>
        simp only [start_connector, hs, Bool.false_eq_true, if_false, hr2,
          Bool.not_true, if_true, hemp] at hc
        obtain ⟨n, _, hcn⟩ := verbLoop_mem Call.create ok _ _ _ c hc
        exact Or.inl ⟨n, hcn⟩

theorem patch_calls_mem (I : Integrator) (s : IntegratorState)
    (ok : String → Obj → Bool) :
    ∀ c ∈ (patch_connector I s ok).2,
      (∃ n, c = Call.patch n (mergedPayload
        (to_dict I.fields I.config IntegratorMode.source) s.dynamic_config n)) ∨
      c = Call.patch I.connector_unique_name
        (pyUnion (to_dict I.fields I.config IntegratorMode.source) s.dynamic_config) := by
  intro c hc
  cases hs : s.started with
  | false => simp [patch_connector, hs] at hc
  | true =>
    cases hr2 : (verbLoop Call.patch ok
        (to_dict I.fields I.config IntegratorMode.source) s.dynamic_config
        (connector_names I.marker s.dynamic_config)).2 with
    | false =>
      simp only [patch_connector, hs, Bool.not_true, Bool.false_eq_true,
        if_false, hr2, Bool.not_false, if_true] at hc
      obtain ⟨n, _, hcn⟩ := verbLoop_mem Call.patch ok _ _ _ c hc
      exact Or.inl ⟨n, hcn⟩
    | true =>
      cases hemp : (connector_names I.marker s.dynamic_config).isEmpty with
      | true =>
        cases hok1 : ok I.connector_unique_name
            (pyUnion (to_dict I.fields I.config IntegratorMode.source)
              s.dynamic_config) with
        | true =>
          simp only [patch_connector, hs, Bool.not_true, Bool.false_eq_true,
            if_false, hr2, Bool.not_true, if_true, hemp, hok1] at hc
          rcases List.mem_append.mp hc with h1 | h2
          · obtain ⟨n, _, hcn⟩ := verbLoop_mem Call.patch ok _ _ _ c h1
            exact Or.inl ⟨n, hcn⟩
          · exact Or.inr (by simpa using h2)
        | false =>
          simp only [patch_connector, hs, Bool.not_true, Bool.false_eq_true,
            if_false, hr2, Bool.not_true, if_true, hemp, hok1] at hc
          rcases List.mem_append.mp hc with h1 | h2
          · obtain ⟨n, _, hcn⟩ := verbLoop_mem Call.patch ok _ _ _ c h1
            exact Or.inl ⟨n, hcn⟩
          · exact Or.inr (by simpa using h2)
      | false =>
        simp only [patch_connector, hs, Bool.not_true, Bool.false_eq_true,
          if_false, hr2, Bool.not_true, if_true, hemp] at hc
        obtain ⟨n, _, hcn⟩ := verbLoop_mem Call.patch ok _ _ _ c hc
        exact Or.inl ⟨n, hcn⟩

theorem mergedPayload_no_key (base dyn : Obj) (n : String) (key : String)
    (hbase : hasKey base key = false)
    (hdynSub : ∀ kv, kv ∈ dyn → hasKey (jsonFields kv.2) key = false) :
    hasKey (mergedPayload base dyn n) key = false := by
  unfold mergedPayload
  rw [hasKey_pyUnion, hbase]
  cases hv : objGet dyn n with
  | none => simp [hv, jsonFields, hasKey, objGet]
  | some v =>
    have : (n, v) ∈ dyn := mem_of_objGet_eq_some dyn n v hv
    simp [hv, hdynSub (n, v) this]

theorem start_calls_no_key (I : Integrator) (s : IntegratorState)
    (ok : String → Obj → Bool) (key : String)
    (hbase : hasKey (to_dict I.fields I.config IntegratorMode.source) key = false)
    (hdynTop : hasKey s.dynamic_config key = false)
    (hdynSub : ∀ kv, kv ∈ s.dynamic_config → hasKey (jsonFields kv.2) key = false) :
    ∀ c ∈ (start_connector I s ok).2, ∀ pl, c.payload = some pl →
      hasKey pl key = false := by
  intro c hc pl hpl
  rcases start_calls_mem I s ok c hc with ⟨n, rfl⟩ | rfl
  · injection hpl with h
    rw [← h]
    exact mergedPayload_no_key _ _ n key hbase hdynSub
  · injection hpl with h
    rw [← h]
    simp [hasKey_pyUnion, hbase, hdynTop]

theorem patch_calls_no_key (I : Integrator) (s : IntegratorState)
    (ok : String → Obj → Bool) (key : String)
    (hbase : hasKey (to_dict I.fields I.config IntegratorMode.source) key = false)
    (hdynTop : hasKey s.dynamic_config key = false)
    (hdynSub : ∀ kv, kv ∈ s.dynamic_config → hasKey (jsonFields kv.2) key = false) :
    ∀ c ∈ (patch_connector I s ok).2, ∀ pl, c.payload = some pl →
      hasKey pl key = false := by
  intro c hc pl hpl
  rcases patch_calls_mem I s ok c hc with ⟨n, rfl⟩ | rfl
  · injection hpl with h
    rw [← h]
    exact mergedPayload_no_key _ _ n key hbase hdynSub
  · injection hpl with h
    rw [← h]
    simp [hasKey_pyUnion, hbase, hdynTop]

end BaseIntegrator

theorem splitCharAux_length_pos (l : List Char) (sep : Char) :
    ∀ acc, 1 ≤ (splitCharAux l sep acc).length := by
  induction l with
  | nil => intro acc; simp [splitCharAux]
  | cons c rest ih =>
    intro acc
    by_cases h : (c == sep) = true
    · simp [splitCharAux, h]
    · simp only [splitCharAux, h, Bool.false_eq_true, if_false]
      exact ih _

/-! ## Claim theorems -/

/-- C1: `ConnectClient.start_connector` returns successfully exactly when the
response status is 201, or is 409 with a body whose message contains
"already exists"; any other response raises `ConnectApiError` carrying the
response body; and the 409-already-exists case is treated identically to a
201 (both succeed, no error raised). -/
theorem create_success_characterization (resp : HttpResponse) :
    ((ConnectClient.start_connector resp).isOk = true ↔
      (resp.status = 201 ∨
        (resp.status = 409 ∧ ConnectClient.alreadyExists resp.body = true))) ∧
    (¬(resp.status = 201 ∨
        (resp.status = 409 ∧ ConnectClient.alreadyExists resp.body = true)) →
      ConnectClient.start_connector resp =
        Except.error (ConnectApiError.httpError resp.body)) ∧
    (∀ b, ConnectClient.alreadyExists b = true →
      ConnectClient.start_connector ⟨409, b⟩ =
        ConnectClient.start_connector ⟨201, b⟩) := by
  refine ⟨?_, ?_, ?_⟩
  · by_cases h1 : resp.status = 201
    · simp [ConnectClient.start_connector, Except.isOk, Except.toBool, h1]
    · by_cases h2 : resp.status = 409 ∧ ConnectClient.alreadyExists resp.body = true
      · simp [ConnectClient.start_connector, Except.isOk, Except.toBool, h1, h2]
      · simp [ConnectClient.start_connector, Except.isOk, Except.toBool, h1, h2]
  · intro h
    have h1 : ¬ resp.status = 201 := fun hh => h (Or.inl hh)
    have h2 : ¬(resp.status = 409 ∧ ConnectClient.alreadyExists resp.body = true) :=
      fun hh => h (Or.inr hh)
    simp [ConnectClient.start_connector, h1, h2]
  · intro b hb
    simp [ConnectClient.start_connector, hb]

/-- C1 witness: a concrete 409-already-exists response succeeds and a concrete
500 response raises the API error carrying the body. -/
theorem create_success_witness :
    (ConnectClient.start_connector ⟨409,
        Json.obj [("message", Json.str "Connector abc already exists")]⟩).isOk = true ∧
    ConnectClient.start_connector ⟨500, Json.str "boom"⟩ =
      Except.error (ConnectApiError.httpError (Json.str "boom")) :=
  ⟨(create_success_characterization _).1.mpr (Or.inr ⟨rfl, by decide⟩),
   (create_success_characterization _).2.1 (by decide)⟩

/-- C2: starting twice with identical desired state and overrides yields
STARTED = true after both calls, and the second call is a no-op: it returns
immediately (logged), issuing no connector create calls and leaving the
state unchanged. -/
theorem start_idempotent (I : BaseIntegrator.Integrator)
    (s : BaseIntegrator.IntegratorState) (ok : String → Obj → Bool)
    (hok : ∀ n p, ok n p = true) :
    (BaseIntegrator.start_connector I s ok).1.started = true ∧
    BaseIntegrator.start_connector I (BaseIntegrator.start_connector I s ok).1 ok =
      ((BaseIntegrator.start_connector I s ok).1, []) :=
  ⟨BaseIntegrator.start_sets_started I s ok hok,
   BaseIntegrator.start_of_started I _ ok (BaseIntegrator.start_sets_started I s ok hok)⟩

/-- C2 witness: concrete double start on a fresh single-connector integrator. -/
theorem start_idempotent_witness :
    (BaseIntegrator.start_connector ⟨[], [], IntegratorMode.source, "mc", "conn"⟩
        ⟨false, []⟩ (fun _ _ => true)).1.started = true ∧
    BaseIntegrator.start_connector ⟨[], [], IntegratorMode.source, "mc", "conn"⟩
        (BaseIntegrator.start_connector ⟨[], [], IntegratorMode.source, "mc", "conn"⟩
          ⟨false, []⟩ (fun _ _ => true)).1 (fun _ _ => true) =
      ((BaseIntegrator.start_connector ⟨[], [], IntegratorMode.source, "mc", "conn"⟩
          ⟨false, []⟩ (fun _ _ => true)).1, []) :=
  start_idempotent _ _ _ (fun _ _ => rfl)

/-- C3: contrary to the claim (and to the method's own docstring), an empty
endpoint list does not fail fast: `"".split(",") == [""]` has length 1, so
the `len < 1` guard never fires, `endpoint` returns the empty string, and a
request is subsequently attempted.  The error branch is unreachable for
every input. -/
theorem endpoint_empty_no_failfast :
    endpoint "" = Except.ok "" ∧ ∀ s, (endpoint s).isOk = true := by
  constructor
  · rfl
  · intro s
    have h := splitCharAux_length_pos s.toList ',' []
    simp only [endpoint, pySplitChar]
    rw [if_neg (by omega)]
    rfl

/-- C4 counterexample: a transport failure on the tasks GET propagates out of
`task_status` as an exception instead of degrading to `UNKNOWN`, refuting
the claim that the taskStatus query never throws. -/
theorem task_status_transport_throws :
    (ConnectClient.task_status
        (Except.error (ConnectApiError.transport "connection refused"))
        (fun _ => Except.ok ⟨200, Json.arr []⟩)).isOk = false := rfl

/-- C4 (amended): `task_status` maps every HTTP status outcome of either GET
to a `TaskStatus` value — the tasks GET's non-(200,404) ⇒ UNKNOWN, its 404
or an empty task list ⇒ UNASSIGNED, the task-status GET's 404 ⇒ UNASSIGNED
and its other non-200 ⇒ UNKNOWN, its 200 with a recognised state string ⇒
that status — but a transport failure during either GET propagates as
`ConnectApiError` (only `connector_status` degrades transport failures to
UNKNOWN), and a state string outside the enum raises `ValueError`. -/
theorem task_status_amended (r1 : Except ConnectApiError HttpResponse)
    (r2 : Json → Except ConnectApiError HttpResponse) :
    (∀ e, r1 = Except.error e →
      ConnectClient.task_status r1 r2 = Except.error (PyExn.apiError e)) ∧
    (∀ resp, r1 = Except.ok resp → resp.status ≠ 200 → resp.status ≠ 404 →
      ConnectClient.task_status r1 r2 = Except.ok TaskStatus.UNKNOWN) ∧
    (∀ resp, r1 = Except.ok resp → resp.status = 404 →
      ConnectClient.task_status r1 r2 = Except.ok TaskStatus.UNASSIGNED) ∧
    (∀ resp, r1 = Except.ok resp → resp.status = 200 → pyFalsy resp.body = true →
      ConnectClient.task_status r1 r2 = Except.ok TaskStatus.UNASSIGNED) ∧
    (∀ resp t0 rest idv task_id e, r1 = Except.ok resp → resp.status = 200 →
      resp.body = Json.arr (t0 :: rest) →
      pyDictGet t0 "id" (Json.obj []) = some idv →
      pyDictGet idv "task" (Json.num 0) = some task_id →
      r2 task_id = Except.error e →
      ConnectClient.task_status r1 r2 = Except.error (PyExn.apiError e)) ∧
    (∀ resp t0 rest idv task_id sresp, r1 = Except.ok resp → resp.status = 200 →
      resp.body = Json.arr (t0 :: rest) →
      pyDictGet t0 "id" (Json.obj []) = some idv →
      pyDictGet idv "task" (Json.num 0) = some task_id →
      r2 task_id = Except.ok sresp → sresp.status = 404 →
      ConnectClient.task_status r1 r2 = Except.ok TaskStatus.UNASSIGNED) ∧
    (∀ resp t0 rest idv task_id sresp, r1 = Except.ok resp → resp.status = 200 →
      resp.body = Json.arr (t0 :: rest) →
      pyDictGet t0 "id" (Json.obj []) = some idv →
      pyDictGet idv "task" (Json.num 0) = some task_id →
      r2 task_id = Except.ok sresp → sresp.status ≠ 200 → sresp.status ≠ 404 →
      ConnectClient.task_status r1 r2 = Except.ok TaskStatus.UNKNOWN) ∧
    (∀ resp t0 rest idv task_id sresp st t, r1 = Except.ok resp →
      resp.status = 200 → resp.body = Json.arr (t0 :: rest) →
      pyDictGet t0 "id" (Json.obj []) = some idv →
      pyDictGet idv "task" (Json.num 0) = some task_id →
      r2 task_id = Except.ok sresp → sresp.status = 200 →
      pyDictGet sresp.body "state" (Json.str "UNASSIGNED") = some st →
      taskStatusOfJson st = some t →
      ConnectClient.task_status r1 r2 = Except.ok t) ∧
    (∀ resp t0 rest idv task_id sresp st, r1 = Except.ok resp →
      resp.status = 200 → resp.body = Json.arr (t0 :: rest) →
      pyDictGet t0 "id" (Json.obj []) = some idv →
      pyDictGet idv "task" (Json.num 0) = some task_id →
      r2 task_id = Except.ok sresp → sresp.status = 200 →
      pyDictGet sresp.body "state" (Json.str "UNASSIGNED") = some st →
      taskStatusOfJson st = Option.none →
      ConnectClient.task_status r1 r2 =
        Except.error (PyExn.valueError "not a valid TaskStatus")) := by
  refine ⟨?_, ?_, ?_, ?_, ?_, ?_, ?_, ?_, ?_⟩
  · intro e he
    subst he
    rfl
  · intro resp he h200 h404
    subst he
    simp [ConnectClient.task_status, h200, h404]
  · intro resp he h404
    subst he
    simp [ConnectClient.task_status, h404]
  · intro resp he h200 hfalsy
    subst he
    simp [ConnectClient.task_status, h200, hfalsy]
  · intro resp t0 rest idv task_id e he h200 hbody hid htask hr2
    subst he
    obtain ⟨rs, rb⟩ := resp
    simp only at h200 hbody
    subst h200
    subst hbody
    simp [ConnectClient.task_status, pyFalsy, hid, htask, hr2]
  · intro resp t0 rest idv task_id sresp he h200 hbody hid htask hr2 hs404
    subst he
    obtain ⟨rs, rb⟩ := resp
    simp only at h200 hbody
    subst h200
    subst hbody
    simp [ConnectClient.task_status, pyFalsy, hid, htask, hr2, hs404]
  · intro resp t0 rest idv task_id sresp he h200 hbody hid htask hr2 hs200 hs404
    subst he
    obtain ⟨rs, rb⟩ := resp
    simp only at h200 hbody
    subst h200
    subst hbody
    simp [ConnectClient.task_status, pyFalsy, hid, htask, hr2, hs200, hs404]
  · intro resp t0 rest idv task_id sresp st t he h200 hbody hid htask hr2 hs200 hst ht
    subst he
    obtain ⟨rs, rb⟩ := resp
    simp only at h200 hbody
    subst h200
    subst hbody
    simp [ConnectClient.task_status, pyFalsy, hid, htask, hr2, hs200, hst, ht]
  · intro resp t0 rest idv task_id sresp st he h200 hbody hid htask hr2 hs200 hst ht
    subst he
    obtain ⟨rs, rb⟩ := resp
    simp only at h200 hbody
    subst h200
    subst hbody
    simp [ConnectClient.task_status, pyFalsy, hid, htask, hr2, hs200, hst, ht]

/-- C4 witness: concrete transport failures on either GET propagate; concrete
404/503 first responses and 404/500/200-PAUSED/200-RESTARTING second
responses hit every degradation, mapping and ValueError clause. -/
theorem task_status_amended_witness :
    ConnectClient.task_status (Except.error (ConnectApiError.transport "refused"))
        (fun _ => Except.ok ⟨404, Json.null⟩) =
      Except.error (PyExn.apiError (ConnectApiError.transport "refused")) ∧
    ConnectClient.task_status (Except.ok ⟨404, Json.null⟩)
        (fun _ => Except.ok ⟨404, Json.null⟩) = Except.ok TaskStatus.UNASSIGNED ∧
    ConnectClient.task_status (Except.ok ⟨503, Json.null⟩)
        (fun _ => Except.ok ⟨404, Json.null⟩) = Except.ok TaskStatus.UNKNOWN ∧
    ConnectClient.task_status
        (Except.ok ⟨200, Json.arr [Json.obj [("id", Json.obj [("task", Json.num 0)])]]⟩)
        (fun _ => Except.error (ConnectApiError.transport "reset")) =
      Except.error (PyExn.apiError (ConnectApiError.transport "reset")) ∧
    ConnectClient.task_status
        (Except.ok ⟨200, Json.arr [Json.obj [("id", Json.obj [("task", Json.num 0)])]]⟩)
        (fun _ => Except.ok ⟨404, Json.null⟩) = Except.ok TaskStatus.UNASSIGNED ∧
    ConnectClient.task_status
        (Except.ok ⟨200, Json.arr [Json.obj [("id", Json.obj [("task", Json.num 0)])]]⟩)
        (fun _ => Except.ok ⟨500, Json.null⟩) = Except.ok TaskStatus.UNKNOWN ∧
    ConnectClient.task_status
        (Except.ok ⟨200, Json.arr [Json.obj [("id", Json.obj [("task", Json.num 0)])]]⟩)
        (fun _ => Except.ok ⟨200, Json.obj [("state", Json.str "PAUSED")]⟩) =
      Except.ok TaskStatus.PAUSED ∧
    ConnectClient.task_status
        (Except.ok ⟨200, Json.arr [Json.obj [("id", Json.obj [("task", Json.num 0)])]]⟩)
        (fun _ => Except.ok ⟨200, Json.obj [("state", Json.str "RESTARTING")]⟩) =
      Except.error (PyExn.valueError "not a valid TaskStatus") :=
  ⟨(task_status_amended _ _).1 _ rfl,
   (task_status_amended _ _).2.2.1 _ rfl rfl,
   (task_status_amended _ _).2.1 _ rfl (by decide) (by decide),
   (task_status_amended _ _).2.2.2.2.1 _ _ _ _ _ _ rfl rfl rfl rfl rfl rfl,
   (task_status_amended _ _).2.2.2.2.2.1 _ _ _ _ _ _ rfl rfl rfl rfl rfl rfl rfl,
   (task_status_amended _ _).2.2.2.2.2.2.1 _ _ _ _ _ _ rfl rfl rfl rfl rfl rfl
     (by decide) (by decide),
   (task_status_amended _ _).2.2.2.2.2.2.2.1 _ _ _ _ _ _ _ _ rfl rfl rfl rfl rfl
     rfl rfl rfl rfl,
   (task_status_amended _ _).2.2.2.2.2.2.2.2 _ _ _ _ _ _ _ rfl rfl rfl rfl rfl
     rfl rfl rfl rfl⟩

/-- C5 counterexample: an HTTP 200 whose nested connector state string is not
a member of the TaskStatus enum (e.g. the real Kafka Connect state
"RESTARTING") makes `connector_status` raise `ValueError` instead of
returning a value, refuting the claim that it never propagates a failure. -/
theorem connector_status_restarting_throws :
    (ConnectClient.connector_status (Except.ok ⟨200,
        Json.obj [("connector", Json.obj [("state", Json.str "RESTARTING")])]⟩)).isOk
      = false := rfl

/-- C5 (amended): `connector_status` returns UNKNOWN on a transport failure
(caught and logged), UNASSIGNED on 404, UNKNOWN on any status other than
200 and 404, and on 200 the TaskStatus mapped from the nested connector
state string (default "UNASSIGNED") — provided that string is a member of
the enum; an unrecognized state raises `ValueError`. -/
theorem connector_status_amended (r : Except ConnectApiError HttpResponse) :
    (∀ e, r = Except.error e →
      ConnectClient.connector_status r = Except.ok TaskStatus.UNKNOWN) ∧
    (∀ resp, r = Except.ok resp → resp.status = 404 →
      ConnectClient.connector_status r = Except.ok TaskStatus.UNASSIGNED) ∧
    (∀ resp, r = Except.ok resp → resp.status ≠ 200 → resp.status ≠ 404 →
      ConnectClient.connector_status r = Except.ok TaskStatus.UNKNOWN) ∧
    (∀ resp conn st t, r = Except.ok resp → resp.status = 200 →
      pyDictGet resp.body "connector" (Json.obj []) = some conn →
      pyDictGet conn "state" (Json.str "UNASSIGNED") = some st →
      taskStatusOfJson st = some t →
      ConnectClient.connector_status r = Except.ok t) := by
  refine ⟨?_, ?_, ?_, ?_⟩
  · intro e he
    subst he
    rfl
  · intro resp he h404
    subst he
    simp [ConnectClient.connector_status, h404]
  · intro resp he h200 h404
    subst he
    simp [ConnectClient.connector_status, h200, h404]
  · intro resp conn st t he h200 hconn hst ht
    subst he
    simp [ConnectClient.connector_status, h200, hconn, hst, ht]

/-- C5 witness: the three concrete status-mapping cases named by the spec:
transport exception ⇒ UNKNOWN, HTTP 404 ⇒ UNASSIGNED, HTTP 200 with nested
state "RUNNING" ⇒ RUNNING. -/
theorem connector_status_amended_witness :
    ConnectClient.connector_status
        (Except.error (ConnectApiError.transport "timeout")) =
      Except.ok TaskStatus.UNKNOWN ∧
    ConnectClient.connector_status (Except.ok ⟨404, Json.null⟩) =
      Except.ok TaskStatus.UNASSIGNED ∧
    ConnectClient.connector_status (Except.ok ⟨200,
        Json.obj [("connector", Json.obj [("state", Json.str "RUNNING")])]⟩) =
      Except.ok TaskStatus.RUNNING :=
  ⟨(connector_status_amended _).1 _ rfl,
   (connector_status_amended _).2.1 _ rfl rfl,
   (connector_status_amended _).2.2.2 _ (Json.obj [("state", Json.str "RUNNING")])
     (Json.str "RUNNING") TaskStatus.RUNNING rfl rfl rfl rfl rfl⟩

/-- C6: the wire payload produced by `to_dict` contains a wire key iff some
declared option carries that key with applicability `both` or equal to the
requested mode; an option with applicability `none` never causes inclusion
(it is neither `both` nor the image of a mode), and a formatter declaring
only `none` options produces the empty payload. -/
theorem to_dict_key_iff_applicable (fields : List (String × ConfigOption))
    (cfg : Obj) (m : IntegratorMode) (key : String) :
    (hasKey (to_dict fields cfg m) key = true ↔
      ∃ p, p ∈ fields ∧ p.2.json_key = key ∧
        (p.2.mode = OptionMode.both ∨ p.2.mode = m.toOptionMode)) ∧
    ((∀ p, p ∈ fields → p.2.mode = OptionMode.none) → to_dict fields cfg m = []) := by
  constructor
  · rw [hasKey_to_dict]
    constructor
    · rintro ⟨p, hp, hap, hkp⟩
      exact ⟨p, hp, hkp, (applicable_iff _ _).mp hap⟩
    · rintro ⟨p, hp, hkp, hmode⟩
      exact ⟨p, hp, (applicable_iff _ _).mpr hmode, hkp⟩
  · intro h
    apply to_dict_empty_of_none_applicable
    intro p hp
    have hm := h p hp
    cases m <;> simp [applicable, hm, IntegratorMode.toOptionMode]

/-- C6 witness: a `both` option's key is present in source mode while a
`none`-only formatter yields the empty payload. -/
theorem to_dict_key_iff_applicable_witness :
    hasKey (to_dict
        [("topic", ⟨"kafka.topic", Json.str "t", OptionMode.both, true, ""⟩),
         ("mode", ⟨"na", Json.str "source", OptionMode.none, true, ""⟩)]
        [] IntegratorMode.source) "kafka.topic" = true ∧
    to_dict [("mode", ⟨"na", Json.str "source", OptionMode.none, true, ""⟩)]
        [] IntegratorMode.source = [] :=
  ⟨(to_dict_key_iff_applicable _ _ _ _).1.mpr
      ⟨("topic", ⟨"kafka.topic", Json.str "t", OptionMode.both, true, ""⟩),
        List.mem_cons_self _ _, rfl, Or.inl rfl⟩,
   (to_dict_key_iff_applicable _ _ _ "na").2
      (by intro p hp; rw [List.mem_singleton] at hp; subst hp; rfl)⟩

/-- C7: an option declared with `configurable = false` is emitted with its
declared default value, even when the charm config contains a same-named
key with a different value (the option's wire key being unique among the
declared options pins down the payload entry). -/
theorem to_dict_nonconfigurable_default (fields : List (String × ConfigOption))
    (cfg : Obj) (m : IntegratorMode) (n : String) (o : ConfigOption)
    (hmem : (n, o) ∈ fields) (hconf : o.configurable = false)
    (happ : applicable o m = true)
    (huniq : ∀ p, p ∈ fields → p.2.json_key = o.json_key → p.2 = o) :
    objGet (to_dict fields cfg m) o.json_key = some o.default := by
  rw [objGet_to_dict]
  apply lastEmit_eq_of_all
  · exact ⟨(n, o), hmem, happ, rfl⟩
  · intro p hp hap hkp
    have hpo : p.2 = o := huniq p hp hkp
    simp [emitted, hpo, hconf]

/-- C7 witness: the charm config supplies a same-named key with a different
value, yet the non-configurable option's declared default is emitted. -/
theorem to_dict_nonconfigurable_default_witness :
    objGet (to_dict
        [("topic", ⟨"kafka.topic", Json.str "static-topic", OptionMode.both, false, ""⟩)]
        [("topic", Json.str "user-topic")] IntegratorMode.source) "kafka.topic" =
      some (Json.str "static-topic") :=
  to_dict_nonconfigurable_default _ _ _ "topic" _ (List.mem_singleton.mpr rfl) rfl rfl
    (by intro p hp _; rw [List.mem_singleton] at hp; subst hp; rfl)

/-- C8: in multi-connector mode with override entries for identifiers a and b,
start issues exactly one create per identifier, each payload being the
right-biased merge of the formatter output with that connector's override
mapping — and override keys win on conflict. -/
theorem start_multiconnector_merge (I : BaseIntegrator.Integrator) (a b : String)
    (ova ovb : Obj) (ok : String → Obj → Bool)
    (ha : strStarts a I.marker = true) (hb : strStarts b I.marker = true)
    (hab : a ≠ b) (hok : ∀ n p, ok n p = true)
    (hnda : (ova.map Prod.fst).Nodup) (hndb : (ovb.map Prod.fst).Nodup) :
    (BaseIntegrator.start_connector I
        ⟨false, [(a, Json.obj ova), (b, Json.obj ovb)]⟩ ok).2 =
      [BaseIntegrator.Call.create a
          (pyUnion (to_dict I.fields I.config IntegratorMode.source) ova),
       BaseIntegrator.Call.create b
          (pyUnion (to_dict I.fields I.config IntegratorMode.source) ovb)] ∧
    (∀ k v, objGet ova k = some v →
      objGet (pyUnion (to_dict I.fields I.config IntegratorMode.source) ova) k = some v) ∧
    (∀ k v, objGet ovb k = some v →
      objGet (pyUnion (to_dict I.fields I.config IntegratorMode.source) ovb) k = some v) := by
  refine ⟨?_, fun k v hv => objGet_pyUnion_right ova _ k v hnda hv,
    fun k v hv => objGet_pyUnion_right ovb _ k v hndb hv⟩
  have hnames : BaseIntegrator.connector_names I.marker
      [(a, Json.obj ova), (b, Json.obj ovb)] = [a, b] := by
    simp [BaseIntegrator.connector_names, ha, hb]
  have hloop := BaseIntegrator.verbLoop_map BaseIntegrator.Call.create ok
    (to_dict I.fields I.config IntegratorMode.source)
    [(a, Json.obj ova), (b, Json.obj ovb)] [a, b] hok
  simp [BaseIntegrator.start_connector, hnames, hloop, hok,
    BaseIntegrator.mergedPayload, BaseIntegrator.jsonFields, objGet, hab]

/-- C8 witness: concrete two-connector override set with a conflicting key in
the second override. -/
theorem start_multiconnector_merge_witness :
    (BaseIntegrator.start_connector
        ⟨[("topic", ⟨"t.key", Json.str "d", OptionMode.both, true, ""⟩)], [],
          IntegratorMode.source, "mc", "conn"⟩
        ⟨false, [("mc_a", Json.obj [("k", Json.str "va")]),
                 ("mc_b", Json.obj [("t.key", Json.str "override")])]⟩
        (fun _ _ => true)).2 =
      [BaseIntegrator.Call.create "mc_a"
          (pyUnion (to_dict [("topic", ⟨"t.key", Json.str "d", OptionMode.both, true, ""⟩)]
            [] IntegratorMode.source) [("k", Json.str "va")]),
       BaseIntegrator.Call.create "mc_b"
          (pyUnion (to_dict [("topic", ⟨"t.key", Json.str "d", OptionMode.both, true, ""⟩)]
            [] IntegratorMode.source) [("t.key", Json.str "override")])] ∧
    (∀ k v, objGet [("k", Json.str "va")] k = some v →
      objGet (pyUnion (to_dict [("topic", ⟨"t.key", Json.str "d", OptionMode.both, true, ""⟩)]
        [] IntegratorMode.source) [("k", Json.str "va")]) k = some v) ∧
    (∀ k v, objGet [("t.key", Json.str "override")] k = some v →
      objGet (pyUnion (to_dict [("topic", ⟨"t.key", Json.str "d", OptionMode.both, true, ""⟩)]
        [] IntegratorMode.source) [("t.key", Json.str "override")]) k = some v) :=
  start_multiconnector_merge _ "mc_a" "mc_b" _ _ _ rfl rfl (by decide)
    (fun _ _ => rfl) (by simp) (by simp)

/-- C9: `maybe_resume_connector` issues the resume call iff the aggregate
connector status equals STOPPED; for RUNNING, PAUSED, FAILED, UNASSIGNED
and UNKNOWN no resume call is made. -/
theorem resume_iff_stopped (st : TaskStatus) (n : String) :
    (BaseIntegrator.maybe_resume_connector st n =
      if st = TaskStatus.STOPPED then [BaseIntegrator.Call.resume n] else []) ∧
    BaseIntegrator.maybe_resume_connector TaskStatus.RUNNING n = [] ∧
    BaseIntegrator.maybe_resume_connector TaskStatus.PAUSED n = [] ∧
    BaseIntegrator.maybe_resume_connector TaskStatus.FAILED n = [] ∧
    BaseIntegrator.maybe_resume_connector TaskStatus.UNASSIGNED n = [] ∧
    BaseIntegrator.maybe_resume_connector TaskStatus.UNKNOWN n = [] := by
  refine ⟨?_, rfl, rfl, rfl, rfl, rfl⟩
  by_cases h : st = TaskStatus.STOPPED <;>
    simp [BaseIntegrator.maybe_resume_connector, h]

/-- C10: the lifecycle controller's start and patch build the formatter
payload with the mode argument fixed to "source": the configured
integrator mode (even "sink") is never consulted, and consequently a
sink-only option's wire key (not supplied by any dynamic override) never
appears in any payload the controller sends. -/
theorem controller_mode_fixed_source (I : BaseIntegrator.Integrator)
    (s : BaseIntegrator.IntegratorState) (ok : String → Obj → Bool) (key : String)
    (hsink : ∀ p, p ∈ I.fields → p.2.json_key = key → p.2.mode = OptionMode.sink)
    (hdynTop : hasKey s.dynamic_config key = false)
    (hdynSub : ∀ kv, kv ∈ s.dynamic_config →
      hasKey (BaseIntegrator.jsonFields kv.2) key = false) :
    (BaseIntegrator.start_connector I s ok =
      BaseIntegrator.start_connector { I with mode := IntegratorMode.source } s ok) ∧
    (BaseIntegrator.patch_connector I s ok =
      BaseIntegrator.patch_connector { I with mode := IntegratorMode.source } s ok) ∧
    (∀ c, c ∈ (BaseIntegrator.start_connector I s ok).2 ++
        (BaseIntegrator.patch_connector I s ok).2 →
      ∀ pl, c.payload = some pl → hasKey pl key = false) := by
  have hbase : hasKey (to_dict I.fields I.config IntegratorMode.source) key = false := by
    cases hcontra : hasKey (to_dict I.fields I.config IntegratorMode.source) key with
    | false => rfl
    | true =>
      obtain ⟨p, hp, hap, hkp⟩ := (hasKey_to_dict _ _ _ _).mp hcontra
      have hmode := hsink p hp hkp
      rw [applicable_sink_source p.2 hmode] at hap
      cases hap
  refine ⟨?_, ?_, ?_⟩
  · cases I; rfl
  · cases I; rfl
  · intro c hc pl hpl
    rcases List.mem_append.mp hc with h1 | h2
    · exact BaseIntegrator.start_calls_no_key I s ok key hbase hdynTop hdynSub c h1 pl hpl
    · exact BaseIntegrator.patch_calls_no_key I s ok key hbase hdynTop hdynSub c h2 pl hpl

/-- C10 witness: an integrator whose configured mode is "sink" with a single
sink-only declared option. -/
theorem controller_mode_fixed_source_witness :
    (BaseIntegrator.start_connector
        ⟨[("s", ⟨"sink.key", Json.str "d", OptionMode.sink, true, ""⟩)], [],
          IntegratorMode.sink, "mc", "conn"⟩ ⟨false, []⟩ (fun _ _ => true) =
      BaseIntegrator.start_connector
        ⟨[("s", ⟨"sink.key", Json.str "d", OptionMode.sink, true, ""⟩)], [],
          IntegratorMode.source, "mc", "conn"⟩ ⟨false, []⟩ (fun _ _ => true)) ∧
    (BaseIntegrator.patch_connector
        ⟨[("s", ⟨"sink.key", Json.str "d", OptionMode.sink, true, ""⟩)], [],
          IntegratorMode.sink, "mc", "conn"⟩ ⟨false, []⟩ (fun _ _ => true) =
      BaseIntegrator.patch_connector
        ⟨[("s", ⟨"sink.key", Json.str "d", OptionMode.sink, true, ""⟩)], [],
          IntegratorMode.source, "mc", "conn"⟩ ⟨false, []⟩ (fun _ _ => true)) ∧
    (∀ c, c ∈ (BaseIntegrator.start_connector
        ⟨[("s", ⟨"sink.key", Json.str "d", OptionMode.sink, true, ""⟩)], [],
          IntegratorMode.sink, "mc", "conn"⟩ ⟨false, []⟩ (fun _ _ => true)).2 ++
        (BaseIntegrator.patch_connector
          ⟨[("s", ⟨"sink.key", Json.str "d", OptionMode.sink, true, ""⟩)], [],
            IntegratorMode.sink, "mc", "conn"⟩ ⟨false, []⟩ (fun _ _ => true)).2 →
      ∀ pl, c.payload = some pl → hasKey pl "sink.key" = false) :=
  controller_mode_fixed_source _ _ _ "sink.key"
    (by intro p hp _; rw [List.mem_singleton] at hp; subst hp; rfl)
    rfl
    (by intro kv hkv; simp at hkv)

end Kafkacl
